import Mathlib

/-!
Verification of the hatiyar module registry and session engine.

This file is a shallow embedding, in Lean 4, of the core of the
`ajutamangdev/hatiyar` interactive security-assessment shell:

* `src/hatiyar/core/module_base.py` — option validation, typed option
  setting, and the `run` workflow of `CVEModule`;
* `src/hatiyar/core/modules.py` — YAML-descriptor validation,
  registration into the registry (`metadata_cache`, `namespaces`,
  `categories`, `cve_map`, `_errors`), namespace listing and module
  loading;
* `src/hatiyar/cli/commands.py` — the session state machine
  (`active_module`, `active_module_name`, `module_options`,
  `global_options`, `current_context`) and the command handlers
  `use`, `set`, `back`, `cd`, `list`, plus the sensitive-value masking
  used by the display commands.

Python dicts are modelled as insertion-ordered association lists with
unique keys; dynamic import of a module implementation is modelled by an
environment `String → Option ModuleInstance` giving, for each
normalized import path, the result of importing it and its `Module`
class (`none` covers ImportError, a missing `Module` class, and any
exception raised during construction).  Console rendering is modelled
only where a claim depends on it (the `set` confirmation echo and the
displayed-value columns of the option tables).
-/

/-- Scalar values stored in option maps, mirroring the Python runtime
types the code inspects (`bool`/`int`/`str`).  The `float` branch of
`_convert_option_value` is not represented: no option schema or claim in
this development stores a float default. -/
inductive PyVal where
  | str (s : String)
  | int (n : Int)
  | bool (b : Bool)
deriving DecidableEq, Repr

/-- Python truthiness of a stored option value (`if value:`). -/
def pyTruthy : PyVal → Bool
  | .str s => s ≠ ""
  | .int n => n ≠ 0
  | .bool b => b

/-- Python `str(value)` for the values representable here. -/
def pyStr : PyVal → String
  | .str s => s
  | .int n => toString n
  | .bool b => if b then "True" else "False"

/-- Python `type(value).__name__` as used by the `show options` table. -/
def pyTypeName : PyVal → String
  | .str _ => "str"
  | .int _ => "int"
  | .bool _ => "bool"

/-- Python string primitives, implemented on the underlying character
list so that concrete evaluation goes through the kernel
(`String.toUpper`, `String.startsWith`, ... recurse on byte positions
and are opaque to kernel reduction).  `strUpper`/`strLower` model
`str.upper()`/`str.lower()` on the ASCII range the code uses. -/
def strUpper (s : String) : String := ⟨s.data.map Char.toUpper⟩

def strLower (s : String) : String := ⟨s.data.map Char.toLower⟩

/-- Python `s.startswith(p)`. -/
def strStartsWith (s p : String) : Bool := p.data.isPrefixOf s.data

/-- Python `c in s` for a single character (used as `"." in name`). -/
def strContainsChar (s : String) (c : Char) : Bool := s.data.contains c

/-- Python `s.strip()`. -/
def strTrim (s : String) : String :=
  ⟨((s.data.dropWhile Char.isWhitespace).reverse.dropWhile Char.isWhitespace).reverse⟩

/-- Python `sep.join(xs)`. -/
def strIntercalate (sep : String) (xs : List String) : String :=
  ⟨List.intercalate sep.data (xs.map String.data)⟩

/-- Python `s.split(c)`. -/
def strSplitOn (s : String) (c : Char) : List String :=
  (s.data.splitOn c).map (fun d => ⟨d⟩)

def digitsToNat (ds : List Char) : Option Nat :=
  if ds ≠ [] ∧ ds.all Char.isDigit then
    some (ds.foldl (fun n c => n * 10 + (c.toNat - 48)) 0)
  else none

/-- Python `int(s)` on the decimal forms the option coercion can meet:
optional surrounding whitespace, optional sign, digits; anything else
raises ValueError (`none`). -/
def strToInt (s : String) : Option Int :=
  match (strTrim s).data with
  | '-' :: ds => (digitsToNat ds).map (fun n => -(n : Int))
  | '+' :: ds => (digitsToNat ds).map (fun n => (n : Int))
  | ds => (digitsToNat ds).map (fun n => (n : Int))

/-- First-match lookup in an insertion-ordered association list (the
model of `d[k]` / `k in d` on a Python dict). -/
def lookupStr {α : Type} (k : String) : List (String × α) → Option α
  | [] => none
  | (k', v) :: rest => if k' = k then some v else lookupStr k rest

/-- Dict assignment `d[k] = v`: update the existing entry in place,
else append a new entry at the end (Python dicts preserve insertion
order). -/
def assocSet {α : Type} (k : String) (v : α) : List (String × α) → List (String × α)
  | [] => [(k, v)]
  | (k', v') :: rest => if k' = k then (k, v) :: rest else (k', v') :: assocSet k v rest

theorem lookupStr_assocSet_self {α : Type} (k : String) (v : α) (l : List (String × α)) :
    lookupStr k (assocSet k v l) = some v := by
  induction l with
  | nil => simp [assocSet, lookupStr]
  | cons hd tl ih =>
    obtain ⟨k', v'⟩ := hd
    by_cases h : k' = k
    · simp [assocSet, lookupStr, h]
    · simp [assocSet, lookupStr, h, ih]

theorem lookupStr_assocSet_ne {α : Type} {k k' : String} (h : k' ≠ k) (v : α) :
    ∀ (l : List (String × α)), lookupStr k (assocSet k' v l) = lookupStr k l
  | [] => by
    simp [assocSet, lookupStr, h]
  | (a, b) :: tl => by
    by_cases h2 : a = k'
    · subst h2
      rw [assocSet, if_pos rfl, lookupStr, if_neg h, lookupStr, if_neg h]
    · rw [assocSet, if_neg h2, lookupStr, lookupStr]
      by_cases h3 : a = k
      · rw [if_pos h3, if_pos h3]
      · rw [if_neg h3, if_neg h3, lookupStr_assocSet_ne h v tl]

theorem lookupStr_some_mem {α : Type} {k : String} {v : α} :
    ∀ {l : List (String × α)}, lookupStr k l = some v → (k, v) ∈ l
  | [], h => by simp [lookupStr] at h
  | (a, b) :: tl, h => by
    by_cases h2 : a = k
    · subst h2
      rw [lookupStr, if_pos rfl] at h
      obtain rfl : b = v := by injection h
      exact List.mem_cons_self _ _
    · rw [lookupStr, if_neg h2] at h
      exact List.mem_cons_of_mem _ (lookupStr_some_mem h)

theorem assocSet_map_fst {α : Type} (k : String) (v : α) :
    ∀ (l : List (String × α)), (assocSet k v l).map Prod.fst =
      if k ∈ l.map Prod.fst then l.map Prod.fst else l.map Prod.fst ++ [k]
  | [] => by simp [assocSet]
  | (a, b) :: tl => by
    by_cases h : a = k
    · subst h
      simp [assocSet]
    · have ha : ¬ k = a := fun hh => h hh.symm
      rw [assocSet, if_neg h]
      by_cases h2 : k ∈ tl.map Prod.fst
      · simp [assocSet_map_fst k v tl, h2, ha]
      · simp [assocSet_map_fst k v tl, h2, ha]

theorem assocSet_keys_nodup {α : Type} (k : String) (v : α)
    {l : List (String × α)} (hn : (l.map Prod.fst).Nodup) :
    ((assocSet k v l).map Prod.fst).Nodup := by
  rw [assocSet_map_fst]
  split
  · exact hn
  · next h =>
    refine List.Nodup.append hn (List.nodup_singleton k) ?_
    intro x hx hx2
    rw [List.mem_singleton] at hx2
    subst hx2
    exact h hx

/-- Python substring test `needle in hay`. -/
def strContainsSub (hay needle : String) : Bool :=
  decide (needle.data <:+: hay.data)

theorem strContainsSub_of_eq_append {hay needle a b : String}
    (h : hay = a ++ needle ++ b) : strContainsSub hay needle = true := by
  subst h
  simp only [strContainsSub, decide_eq_true_eq]
  exact ⟨a.data, b.data, by simp [String.data_append]⟩

/- ********************************************************************
   src/hatiyar/core/module_base.py
   ******************************************************************** -/

/-- Result dictionary returned by a module `run()`/`exploit()`
(`{"success": ..., "error": ...}`; the optional `data` payload is not
inspected by any claim and is omitted). -/
structure RunResult where
  success : Bool
  error : Option String := none
deriving DecidableEq, Repr

/-- ModuleBase._is_valid_option_value: `None` (modelled by a missing
key, i.e. `none` from the lookup) and blank strings are invalid. -/
def isValidOptionValue : Option PyVal → Bool
  | none => false
  | some (.str s) => !(strTrim s = "")
  | some _ => true

/-- ModuleBase.validate_options over an options dict and the
REQUIRED_OPTIONS list (the Python loop returns False at the first
invalid required option, which coincides with `List.all`). -/
def validateOptions (options : List (String × PyVal)) (required : List String) : Bool :=
  required.all fun opt => isValidOptionValue (lookupStr opt options)

/-- ModuleBase._convert_option_value: coercion keyed off the runtime
type of the currently stored value.  `int(value)` is modelled with
`strToInt`; a parse failure (ValueError, caught by `set_option`)
is `none`. -/
def convertOptionValue (current : PyVal) (value : String) : Option PyVal :=
  match current with
  | .bool _ => some (.bool (["true", "1", "yes", "y"].contains (strLower value)))
  | .int _ => (strToInt value).map PyVal.int
  | .str _ => some (.str value)

/-- ModuleBase.set_option on the options dict: uppercase the key,
reject unknown keys, coerce against the stored value's type; on a
conversion failure the option is left unchanged and False is
returned. -/
def setOptionOpts (options : List (String × PyVal)) (key value : String) :
    Bool × List (String × PyVal) :=
  let keyUpper := strUpper key
  match lookupStr keyUpper options with
  | none => (false, options)
  | some current =>
    match convertOptionValue current value with
    | some v => (true, assocSet keyUpper v options)
    | none => (false, options)

/-- CVEModule instance: its mutable options dict and REQUIRED_OPTIONS,
together with the behaviour of the two abstract methods the concrete
exploit module supplies (`check()` and `exploit()` are abstract in
module_base.py; `checkResult`/`exploitResult` record what they would
return). -/
structure CVEModule where
  options : List (String × PyVal)
  requiredOptions : List String
  checkResult : Bool
  exploitResult : RunResult
deriving DecidableEq, Repr

/-- CVEModule.set_option (inherited from ModuleBase). -/
def CVEModule.setOption (m : CVEModule) (key value : String) : Bool × CVEModule :=
  let r := setOptionOpts m.options key value
  (r.1, { m with options := r.2 })

/-- Trace of one CVEModule.run() call: the returned result dictionary
and whether the abstract `check()` / `exploit()` methods were invoked
during the call. -/
structure RunTrace where
  result : RunResult
  checkCalled : Bool
  exploitCalled : Bool
deriving DecidableEq, Repr

/-- CVEModule.run, exactly as in module_base.py lines 165-173: validate
options (returning the "Invalid options" failure dict on failure), print
the targeting banner, then `return self.exploit()`.  The body contains
no call to `self.check()`, so `checkCalled` is `false` on every path. -/
def CVEModule.run (m : CVEModule) : RunTrace :=
  if !validateOptions m.options m.requiredOptions then
    { result := { success := false, error := some "Invalid options" },
      checkCalled := false, exploitCalled := false }
  else
    { result := m.exploitResult, checkCalled := false, exploitCalled := true }

/- ********************************************************************
   src/hatiyar/core/modules.py — descriptor validation and registry
   ******************************************************************** -/

/-- A module definition as parsed from a YAML registry document.  A
field is `none` when the key is absent from the YAML mapping (the key
sets REQUIRED_MODULE_FIELDS / OPTIONAL_MODULE_FIELDS of modules.py).
The numeric `cvss_score` is kept as an opaque scalar string: no claim
inspects its value, only its presence. -/
structure ModDef where
  id : Option String := none
  name : Option String := none
  module_path : Option String := none
  category : Option String := none
  description : Option String := none
  author : Option String := none
  version : Option String := none
  subcategory : Option String := none
  is_namespace : Option Bool := none
  cve_id : Option String := none
  cvss_score : Option String := none
  rank : Option String := none
  disclosure_date : Option String := none
  options : Option (List (String × PyVal)) := none
deriving DecidableEq, Repr

/-- The metadata dictionary built by ModuleManager._register_module.
Conditionally-present keys (`cve_id`, the cvss block, `options`) are
`Option`s; the `cve` key duplicating `cve_id` for backward
compatibility is not modelled separately. -/
structure Metadata where
  path : String
  name : String
  description : String
  author : String
  version : String
  category : String
  subcategory : String
  type : String
  is_namespace : Bool
  source : String
  cve_id : Option String
  cvss : Option String
  rank : Option String
  disclosure_date : Option String
  options : Option (List (String × PyVal))
deriving DecidableEq, Repr

/-- ModuleManager._infer_type_from_category. -/
def inferTypeFromCategory (category : String) : String :=
  (lookupStr (strLower category)
    [("cve", "cve"), ("enumeration", "enumeration"), ("cloud", "cloud"),
     ("platforms", "platforms"), ("misc", "auxiliary"),
     ("auxiliary", "auxiliary")]).getD "auxiliary"

/-- The metadata dictionary _register_module builds from a definition
(before the duplicate-path check). -/
def metadataOf (d : ModDef) (sourceFile : String) : Metadata :=
  let category := d.category.getD "misc"
  { path := d.module_path.getD ""
    name := d.name.getD "Unknown"
    description := d.description.getD ""
    author := d.author.getD "Unknown"
    version := d.version.getD "1.0"
    category := category
    subcategory := d.subcategory.getD ""
    type := inferTypeFromCategory category
    is_namespace := d.is_namespace.getD false
    source := sourceFile
    cve_id := d.cve_id
    cvss := d.cvss_score
    rank := if d.cvss_score.isSome then some (d.rank.getD "normal") else none
    disclosure_date :=
      if d.cvss_score.isSome then some (d.disclosure_date.getD "") else none
    options := d.options }

/-- The ModuleManager's registry state: the insertion-ordered dicts
`metadata_cache`, `namespaces`, `categories`, `cve_map`, and the
`_errors` list of recorded validation errors. -/
structure Manager where
  metadata_cache : List (String × Metadata) := []
  namespaces : List (String × Metadata) := []
  categories : List (String × List Metadata) := []
  cve_map : List (String × String) := []
  errors : List String := []
deriving DecidableEq, Repr

/-- Appending a metadata record to its category bucket
(`self.categories[module_type].append(metadata)` with on-demand bucket
creation). -/
def categoriesAppend (cats : List (String × List Metadata)) (ty : String)
    (m : Metadata) : List (String × List Metadata) :=
  match lookupStr ty cats with
  | some l => assocSet ty (l ++ [m]) cats
  | none => cats ++ [(ty, [m])]

/-- ModuleManager._validate_module_definition: definitions missing one
of the required fields {id, name, module_path, category} append a
ValidationError to `_errors` and are skipped.  The rendered set of
missing field names is elided from the message. -/
def validateModuleDefinition (mgr : Manager) (d : ModDef) (sourceFile : String) :
    Manager × Bool :=
  if d.id.isNone || d.name.isNone || d.module_path.isNone || d.category.isNone then
    ({ mgr with errors := mgr.errors ++ [sourceFile ++ ": Missing required fields"] },
     false)
  else
    (mgr, true)

/-- ModuleManager._register_module: build the metadata, reject a
duplicate `module_path` (first-registered wins) — note the duplicate
branch only emits a verbose-mode warning via `_log` and does NOT append
to `_errors` — then insert into `metadata_cache`, `namespaces` (when a
namespace), the category bucket, and `cve_map` (when the id is a CVE
id). -/
def registerModule (mgr : Manager) (d : ModDef) (sourceFile : String) :
    Manager × Bool :=
  let module_id := d.id.getD ""
  let module_path := d.module_path.getD ""
  let is_namespace := d.is_namespace.getD false
  let metadata := metadataOf d sourceFile
  if (lookupStr module_path mgr.metadata_cache).isSome then
    (mgr, false)
  else
    let mgr1 := { mgr with
      metadata_cache := mgr.metadata_cache ++ [(module_path, metadata)] }
    let mgr2 := if is_namespace then
        { mgr1 with namespaces := mgr1.namespaces ++ [(module_path, metadata)] }
      else mgr1
    let mgr3 := { mgr2 with
      categories := categoriesAppend mgr2.categories metadata.type metadata }
    let mgr4 := if module_id ≠ "" && strStartsWith (strUpper module_id) "CVE-" then
        { mgr3 with cve_map := assocSet (strUpper module_id) module_path mgr3.cve_map }
      else mgr3
    (mgr4, true)

/-- The per-definition loop of ModuleManager._load_registry_file:
validate, then register, counting successful registrations. -/
def loadRegistryDefs (mgr : Manager) (defs : List ModDef) (sourceFile : String) :
    Manager × Nat :=
  defs.foldl
    (fun acc d =>
      let v := validateModuleDefinition acc.1 d sourceFile
      if v.2 then
        let r := registerModule v.1 d sourceFile
        (r.1, if r.2 then acc.2 + 1 else acc.2)
      else (v.1, acc.2))
    (mgr, 0)

/-- Ordering of metadata records by display name, the key function of
`sorted(filtered, key=lambda x: x.get("name", ""))`. -/
def nameLe (a b : Metadata) : Prop := a.name ≤ b.name

instance : DecidableRel nameLe := fun a b =>
  inferInstanceAs (Decidable (a.name ≤ b.name))

instance : IsTotal Metadata nameLe := ⟨fun a b => le_total a.name b.name⟩

instance : IsTrans Metadata nameLe := ⟨fun _ _ _ h1 h2 => le_trans h1 h2⟩

/-- ModuleManager.get_namespace_modules: empty unless the argument is a
registered namespace; otherwise the non-namespace entries of
`metadata_cache` whose path extends the namespace path, sorted by
display name (Python's stable `sorted` is modelled by insertion
sort). -/
def getNamespaceModules (mgr : Manager) (namespacePath : String) : List Metadata :=
  if (lookupStr namespacePath mgr.namespaces).isSome then
    List.insertionSort nameLe
      ((mgr.metadata_cache.filter
        (fun pm => strStartsWith pm.1 (namespacePath ++ ".") && !pm.2.is_namespace)).map
        Prod.snd)
  else []

/-- A live module instance as the CLI layer sees it (duck-typed):
its `options` dict and `REQUIRED_OPTIONS` list. -/
structure ModuleInstance where
  options : List (String × PyVal)
  requiredOptions : List String
deriving DecidableEq, Repr

/-- ModuleManager.load_module: resolve a CVE id through `cve_map`,
require the path to be registered in `metadata_cache`, normalize with
the "hatiyar.modules." leading segment, then import and instantiate.
The environment `env` maps a normalized import path to the freshly
constructed instance; `none` models a missing module file, a missing
`Module` class, or an exception during import/construction (all of
which make load_module return None).  The `_cache`/`importlib.reload`
distinction only affects which importlib call runs, not the result. -/
def loadModule (mgr : Manager) (env : String → Option ModuleInstance)
    (path : String) : Option ModuleInstance :=
  let resolved : Option String :=
    if strStartsWith (strUpper path) "CVE-" then lookupStr (strUpper path) mgr.cve_map
    else some path
  match resolved with
  | none => none
  | some p =>
    if (lookupStr p mgr.metadata_cache).isSome then
      env (if strStartsWith p "hatiyar.modules." then p else "hatiyar.modules." ++ p)
    else none

/- ********************************************************************
   src/hatiyar/cli/commands.py — session state and command handlers
   ******************************************************************** -/

/-- The fixed category catalog of commands.py (CATEGORIES_INFO);
`dict(CATEGORIES_INFO)` membership is a key lookup in this list. -/
def CATEGORIES_INFO : List (String × String) :=
  [("cve", "CVE exploit modules"),
   ("cloud", "Cloud platform security (AWS, Azure, GCP)"),
   ("enumeration", "Reconnaissance and enumeration tools"),
   ("platforms", "Platform-specific exploits and tools"),
   ("misc", "Miscellaneous modules")]

/-- The sensitive keyword list of commands.py. -/
def SENSITIVE_KEYWORDS : List String := ["PASSWORD", "KEY", "SECRET", "TOKEN"]

/-- The fixed global-option name list of handle_set. -/
def GLOBAL_OPTIONS : List String :=
  ["AWS_PROFILE", "AWS_REGION", "ACCESS_KEY", "SECRET_KEY", "SESSION_TOKEN"]

/-- mask_sensitive_value of commands.py: keys containing a sensitive
keyword are displayed as "***" (or "<not set>" when falsy); others are
displayed with `str(value)` (or "<not set>" when falsy). -/
def maskSensitiveValue (key : String) (value : PyVal) : String :=
  if SENSITIVE_KEYWORDS.any (fun s => strContainsSub (strUpper key) s) then
    if pyTruthy value then "***" else "[dim]<not set>[/dim]"
  else
    if pyTruthy value then pyStr value else "[dim]<not set>[/dim]"

/-- The module-level session globals of commands.py. -/
structure Session where
  activeModule : Option ModuleInstance
  activeModuleName : Option String
  moduleOptions : List (String × PyVal)
  globalOptions : List (String × String)
  currentContext : String
deriving DecidableEq, Repr

/-- Exceptions the embedded handlers can raise.  `typeError` models the
TypeError Python raises when `handle_use` calls
`manager.load_module(full_path, silent=True)`: `ModuleManager.load_module`
accepts only `(self, path)`, so the keyword argument is rejected at call
time, before any resolution happens. -/
inductive PyError where
  | typeError
deriving DecidableEq, Repr

/-- The global-overlay loop of handle_use: for each global option whose
key is also in the freshly seeded module options, overwrite the module
option with the global value. -/
def overlayGlobals (globalOptions : List (String × String))
    (opts : List (String × PyVal)) : List (String × PyVal) :=
  globalOptions.foldl
    (fun acc kv =>
      if (lookupStr kv.1 acc).isSome then assocSet kv.1 (.str kv.2) acc else acc)
    opts

/-- handle_use of commands.py.  Branches, in source order: empty args
(usage message only); a namespace argument becomes a context change; a
short name inside a context reaches the speculative
`load_module(full_path, silent=True)` call, which raises TypeError (the
rest of that branch is unreachable); otherwise the literal name is
loaded — on success the module, its name and the overlaid options are
installed, on failure `active_module = None` is assigned while
`active_module_name` and `module_options` keep their previous values. -/
def handleUse (mgr : Manager) (env : String → Option ModuleInstance)
    (st : Session) (args : List String) : Except PyError Session :=
  match args with
  | [] => .ok st
  | moduleName :: _ =>
    if (lookupStr moduleName mgr.namespaces).isSome then
      .ok { st with currentContext := moduleName }
    else if (st.currentContext != "") && !(strContainsChar moduleName '.') then
      .error PyError.typeError
    else
      match loadModule mgr env moduleName with
      | some inst =>
        .ok { st with
          activeModule := some inst
          activeModuleName := some moduleName
          moduleOptions := overlayGlobals st.globalOptions inst.options }
      | none => .ok { st with activeModule := none }

/-- The confirmation line handle_set prints after storing a global
option — note it interpolates the raw value. -/
def globalSetEchoLine (key value : String) : String :=
  "[green]" ++ key ++ " => [bold]" ++ value ++ "[/bold][/green] [dim](global)[/dim]"

/-- The confirmation line handle_set prints after a module-scoped set. -/
def moduleSetEchoLine (key value : String) : String :=
  "[green]" ++ key ++ " => [bold]" ++ value ++ "[/bold][/green]"

/-- handle_set of commands.py, returning the new session and the lines
printed.  A recognized global key is written into `global_options`
unconditionally and propagated into the active module's options when
declared there; other keys require an active module and delegate to
set_option (which every ModuleBase subclass has), recording the raw
string in `module_options` on success. -/
def handleSet (st : Session) (args : List String) : Session × List String :=
  match args with
  | a0 :: a1 :: rest =>
    let key := strUpper a0
    let value := strIntercalate " " (a1 :: rest)
    if GLOBAL_OPTIONS.contains key then
      let st1 := { st with globalOptions := assocSet key value st.globalOptions }
      let st2 :=
        match st.activeModule with
        | some m =>
          if (lookupStr key st.moduleOptions).isSome then
            { st1 with
              activeModule := some { m with options := (setOptionOpts m.options key value).2 }
              moduleOptions := assocSet key (.str value) st.moduleOptions }
          else st1
        | none => st1
      (st2, [globalSetEchoLine key value])
    else
      match st.activeModule with
      | none =>
        (st, ["[red]No module loaded. Use [cyan]use <module>[/cyan] first.[/red]",
              "[dim]Or set global options: AWS_PROFILE, AWS_REGION[/dim]"])
      | some m =>
        let r := setOptionOpts m.options key value
        if r.1 then
          ({ st with
             activeModule := some { m with options := r.2 }
             moduleOptions := assocSet key (.str value) st.moduleOptions },
           [moduleSetEchoLine key value])
        else
          (st, ["[red]Failed to set option:[/red] " ++ key,
                "[dim]Use [cyan]show options[/cyan] to see available options[/dim]"])
  | _ =>
    (st, ["[red]Usage: set <option> <value>[/red]",
          "[dim]Example: set AWS_PROFILE myprofile[/dim]",
          "[dim]Global options: AWS_PROFILE, AWS_REGION, ACCESS_KEY, SECRET_KEY[/dim]"])

/-- handle_back of commands.py: an active module is unloaded (clearing
the module-scoped fields only); otherwise pop one context level;
otherwise no-op. -/
def handleBack (st : Session) : Session :=
  match st.activeModule with
  | some _ =>
    { st with activeModule := none, activeModuleName := none, moduleOptions := [] }
  | none =>
    if st.currentContext != "" then
      if strContainsChar st.currentContext '.' then
        { st with currentContext :=
            strIntercalate "." (strSplitOn st.currentContext '.').dropLast }
      else { st with currentContext := "" }
    else st

/-- handle_cd of commands.py (context effect; the tables it prints are
elided).  `cd` with no argument resets to root; `..` pops a segment;
otherwise try context-relative namespace, absolute namespace, then
category; an unmatched target reports an error and leaves the context
unchanged. -/
def handleCd (mgr : Manager) (st : Session) (args : List String) : Session :=
  match args with
  | [] => { st with currentContext := "" }
  | a0 :: _ =>
    let target := strLower a0
    if target == ".." then
      if st.currentContext == "" then st
      else if strContainsChar st.currentContext '.' then
        { st with currentContext :=
            strIntercalate "." (strSplitOn st.currentContext '.').dropLast }
      else { st with currentContext := "" }
    else if (st.currentContext != "") && !(strContainsChar target '.') &&
        (lookupStr (st.currentContext ++ "." ++ target) mgr.namespaces).isSome then
      { st with currentContext := st.currentContext ++ "." ++ target }
    else if (lookupStr target mgr.namespaces).isSome then
      { st with currentContext := target }
    else if (lookupStr target CATEGORIES_INFO).isSome then
      { st with currentContext := target }
    else st

/-- handle_list of commands.py (context effect; the tables it prints
are elided).  With no argument it only displays (`show_categories`
re-assigns "" when the context is already ""); with an argument the
lower-cased target becomes the context unconditionally, before any
validity check. -/
def handleListContext (_mgr : Manager) (st : Session) (args : List String) : Session :=
  match args with
  | [] => st
  | a0 :: _ => { st with currentContext := strLower a0 }

/-- The (Option, Value) display columns of show_global_options: every
value cell goes through mask_sensitive_value. -/
def showGlobalRows (globalOptions : List (String × String)) :
    List (String × String) :=
  globalOptions.map (fun kv => (kv.1, maskSensitiveValue kv.1 (.str kv.2)))

/-- The rows of show_module_options — columns (Option, Current Value,
Required, Type, Source); `none` when no module is loaded. -/
def showModuleOptionsRows (st : Session) :
    Option (List (String × String × String × String × String)) :=
  match st.activeModule with
  | none => none
  | some m =>
    some (st.moduleOptions.map (fun kv =>
      (kv.1, maskSensitiveValue kv.1 kv.2,
       if m.requiredOptions.contains kv.1 then "Yes" else "No",
       pyTypeName kv.2,
       if (lookupStr kv.1 st.globalOptions).isSome then "global" else "module")))

/-- The rows of display_module_options (used by `info`) — columns
(Option, Current Value, Required, Description). -/
def displayModuleOptionsRows (m : ModuleInstance) :
    List (String × String × String × String) :=
  m.options.map (fun kv =>
    (kv.1, maskSensitiveValue kv.1 kv.2,
     if m.requiredOptions.contains kv.1 then "Yes" else "No", ""))

/- ********************************************************************
   Helper lemmas about the embedded operations
   ******************************************************************** -/

theorem isNone_eq_false_of_isSome {α : Type} {o : Option α} (h : o.isSome = true) :
    o.isNone = false := by
  cases o <;> simp_all

theorem lookupStr_append_none {α : Type} {k : String} {l1 : List (String × α)}
    (l2 : List (String × α)) (h : lookupStr k l1 = none) :
    lookupStr k (l1 ++ l2) = lookupStr k l2 := by
  induction l1 with
  | nil => simp
  | cons hd tl ih =>
    obtain ⟨a, b⟩ := hd
    by_cases h2 : a = k
    · rw [lookupStr, if_pos h2] at h
      simp at h
    · rw [lookupStr, if_neg h2] at h
      rw [List.cons_append, lookupStr, if_neg h2]
      exact ih h

theorem intercalate_single (s x : String) : strIntercalate s [x] = x := by
  cases x
  simp [strIntercalate, List.intercalate]

/-- Unfolding of the overlay fold over one global option. -/
theorem overlayGlobals_cons (k v : String) (g : List (String × String))
    (opts : List (String × PyVal)) :
    overlayGlobals ((k, v) :: g) opts =
      overlayGlobals g
        (if (lookupStr k opts).isSome then assocSet k (.str v) opts else opts) := rfl

theorem overlayGlobals_lookup_not_mem {K : String} :
    ∀ (g : List (String × String)) (opts : List (String × PyVal)),
      K ∉ g.map Prod.fst →
      lookupStr K (overlayGlobals g opts) = lookupStr K opts
  | [], opts, _ => rfl
  | (k, v) :: g, opts, h => by
    have hk : k ≠ K := by
      intro hh
      exact h (by simp [hh])
    have hg : K ∉ g.map Prod.fst := fun hh => h (by simp [hh])
    rw [overlayGlobals_cons, overlayGlobals_lookup_not_mem g _ hg]
    split
    · exact lookupStr_assocSet_ne hk _ opts
    · rfl

theorem overlayGlobals_lookup_mem {K V : String} :
    ∀ (g : List (String × String)) (opts : List (String × PyVal)),
      (g.map Prod.fst).Nodup → (K, V) ∈ g →
      (lookupStr K opts).isSome = true →
      lookupStr K (overlayGlobals g opts) = some (.str V)
  | [], _, _, hmem, _ => by simp at hmem
  | (k, v) :: g, opts, hnodup, hmem, hdecl => by
    rw [List.map_cons, List.nodup_cons] at hnodup
    rcases List.mem_cons.mp hmem with heq | hmem2
    · rw [Prod.mk.injEq] at heq
      obtain ⟨h1, h2⟩ := heq
      subst h1
      subst h2
      rw [overlayGlobals_cons, if_pos hdecl]
      have hnot : K ∉ g.map Prod.fst := hnodup.1
      rw [overlayGlobals_lookup_not_mem g _ hnot]
      exact lookupStr_assocSet_self K _ opts
    · have hk : k ≠ K := by
        rintro rfl
        exact hnodup.1 (List.mem_map.mpr ⟨(k, V), hmem2, rfl⟩)
      rw [overlayGlobals_cons]
      have hpres : ∀ opts' : List (String × PyVal),
          lookupStr K (if (lookupStr k opts').isSome then assocSet k (.str v) opts'
            else opts') = lookupStr K opts' := by
        intro opts'
        split
        · exact lookupStr_assocSet_ne hk _ opts'
        · rfl
      exact overlayGlobals_lookup_mem g _ hnodup.2 hmem2
        (by rw [hpres opts]; exact hdecl)

/-- A successful load through the direct branch of handle_use installs
the instance, records its name, and seeds the working options from the
instance options with the global overlay applied. -/
theorem handleUse_load_success (mgr : Manager) (env : String → Option ModuleInstance)
    (st : Session) (name : String) (inst : ModuleInstance)
    (hns : lookupStr name mgr.namespaces = none)
    (hd : st.currentContext = "" ∨ strContainsChar name '.' = true)
    (hload : loadModule mgr env name = some inst) :
    handleUse mgr env st [name] = .ok { st with
      activeModule := some inst
      activeModuleName := some name
      moduleOptions := overlayGlobals st.globalOptions inst.options } := by
  rcases hd with hd | hd
  · simp [handleUse, hns, hd, hload]
  · simp [handleUse, hns, hd, hload]

theorem validateModuleDefinition_valid (mgr : Manager) (d : ModDef) (src : String)
    (h : d.id.isSome ∧ d.name.isSome ∧ d.module_path.isSome ∧ d.category.isSome) :
    validateModuleDefinition mgr d src = (mgr, true) := by
  obtain ⟨h1, h2, h3, h4⟩ := h
  simp [validateModuleDefinition, isNone_eq_false_of_isSome h1,
    isNone_eq_false_of_isSome h2, isNone_eq_false_of_isSome h3,
    isNone_eq_false_of_isSome h4]

theorem registerModule_fresh (mgr : Manager) (d : ModDef) (src : String)
    (hfresh : lookupStr (d.module_path.getD "") mgr.metadata_cache = none) :
    (registerModule mgr d src).1.metadata_cache =
      mgr.metadata_cache ++ [(d.module_path.getD "", metadataOf d src)] ∧
    (registerModule mgr d src).1.errors = mgr.errors ∧
    (registerModule mgr d src).2 = true := by
  by_cases hns : d.is_namespace.getD false = true <;>
    by_cases hid : d.id.getD "" = "" <;>
      by_cases hst : strStartsWith (strUpper (d.id.getD "")) "CVE-" = true <;>
        simp [registerModule, hfresh, hns, hid, hst]

theorem registerModule_dup (mgr : Manager) (d : ModDef) (src : String)
    (hdup : (lookupStr (d.module_path.getD "") mgr.metadata_cache).isSome = true) :
    registerModule mgr d src = (mgr, false) := by
  simp [registerModule, hdup]

/- ********************************************************************
   Concrete fixtures: a small registry in the shape the YAML documents
   produce, an import environment, and session states
   ******************************************************************** -/

def dCloudNs : ModDef :=
  { id := some "cloud", name := some "Cloud Platforms",
    module_path := some "cloud", category := some "cloud",
    is_namespace := some true }

def dAwsNs : ModDef :=
  { id := some "cloud-aws", name := some "AWS",
    module_path := some "cloud.aws", category := some "cloud",
    is_namespace := some true }

def dEc2 : ModDef :=
  { id := some "cloud-aws-ec2", name := some "EC2 Enumeration",
    module_path := some "cloud.aws.ec2", category := some "cloud",
    options := some [("AWS_REGION", .str "us-east-1")] }

def dS3 : ModDef :=
  { id := some "cloud-aws-s3", name := some "S3 Buckets",
    module_path := some "cloud.aws.s3", category := some "cloud",
    options := some [("AWS_REGION", .str "us-east-1"), ("BUCKET", .str "")] }

def dScanner : ModDef :=
  { id := some "misc-scanner", name := some "Port Scanner",
    module_path := some "misc.tools.scanner", category := some "misc" }

/-- The registry built from the five definitions above. -/
def mgrEx : Manager :=
  (loadRegistryDefs {} [dCloudNs, dAwsNs, dEc2, dS3, dScanner] "modules.yaml").1

def instEc2 : ModuleInstance :=
  { options := [("AWS_REGION", PyVal.str "us-east-1")], requiredOptions := [] }

def instS3 : ModuleInstance :=
  { options := [("AWS_REGION", PyVal.str "us-east-1"), ("BUCKET", PyVal.str "")],
    requiredOptions := ["BUCKET"] }

/-- Import environment: the ec2 and s3 implementation files import
cleanly and expose a Module class; everything else fails to import. -/
def envEx : String → Option ModuleInstance := fun p =>
  if p = "hatiyar.modules.cloud.aws.ec2" then some instEc2
  else if p = "hatiyar.modules.cloud.aws.s3" then some instS3
  else none

def sessRoot : Session :=
  { activeModule := none, activeModuleName := none, moduleOptions := [],
    globalOptions := [], currentContext := "" }

def sessAws : Session := { sessRoot with currentContext := "cloud.aws" }

def sessCloud : Session := { sessRoot with currentContext := "cloud" }

/-- A session in which the s3 module is already active. -/
def sessLoaded : Session :=
  { activeModule := some instS3, activeModuleName := some "cloud.aws.s3",
    moduleOptions := [("AWS_REGION", PyVal.str "us-east-1"), ("BUCKET", PyVal.str "")],
    globalOptions := [], currentContext := "" }

/-- A CVE module with its required option set and a target that would
not validate (check() would return false). -/
def cveEx : CVEModule :=
  { options := [("RHOST", PyVal.str "10.0.0.5")], requiredOptions := ["RHOST"],
    checkResult := false, exploitResult := { success := true, error := none } }

/-- A CVE module whose required RHOST is present but empty. -/
def cveUnset : CVEModule :=
  { options := [("RHOST", PyVal.str "")], requiredOptions := ["RHOST"],
    checkResult := true, exploitResult := { success := true, error := none } }

/-- Two valid definitions sharing one module_path. -/
def dDup1 : ModDef :=
  { id := some "mod-one", name := some "First Module",
    module_path := some "misc.dup", category := some "misc" }

def dDup2 : ModDef :=
  { id := some "mod-two", name := some "Second Module",
    module_path := some "misc.dup", category := some "misc" }

/-- A session with the s3 module active and a global AWS_REGION set to
the value the module was seeded with. -/
def sessC4 : Session :=
  { activeModule := some instS3, activeModuleName := some "cloud.aws.s3",
    moduleOptions := [("AWS_REGION", PyVal.str "us-east-1"), ("BUCKET", PyVal.str "")],
    globalOptions := [("AWS_REGION", "us-east-1")], currentContext := "" }

/-- A fresh session whose globals carry the value left behind by the
set in sessC4. -/
def sessAfterSet : Session :=
  { sessRoot with globalOptions := [("AWS_REGION", "eu-west-1")] }

deriving instance DecidableEq for Except

/- ********************************************************************
   Claim theorems
   ******************************************************************** -/

/-- C1: with context "cloud.aws" and registered path "cloud.aws.ec2",
the claim says `use ec2` resolves to and loads "cloud.aws.ec2".  The
module is loadable at its full path (first conjunct), but the
short-name branch of handle_use calls
`manager.load_module(full_path, silent=True)` although
`ModuleManager.load_module` has no `silent` parameter, so Python raises
TypeError before any resolution and nothing is loaded (second
conjunct). -/
theorem use_short_name_in_context_raises_typeError :
    loadModule mgrEx envEx "cloud.aws.ec2" = some instEc2 ∧
    handleUse mgrEx envEx sessAws ["ec2"] = .error PyError.typeError := by
  decide

/-- C2: a CVE module with all required options set and a target that
does not validate (`check()` would return false).  The claim says run()
invokes check() first and returns a non-exploited failure; the code's
CVEModule.run never calls check() and invokes exploit()
unconditionally after option validation. -/
theorem cveModule_run_skips_check :
    validateOptions cveEx.options cveEx.requiredOptions = true ∧
    cveEx.checkResult = false ∧
    CVEModule.run cveEx =
      { result := cveEx.exploitResult, checkCalled := false,
        exploitCalled := true } := by
  decide

/-- C3 counterexample: a session with an active module performs
`use no.such.path` on an unregistered path; handle_use assigns
`active_module = None` while `active_module_name` and `module_options`
keep their old values, so the session is changed and the
instance-iff-path invariant is broken. -/
theorem handleUse_load_failure_clears_instance_only :
    handleUse mgrEx envEx sessLoaded ["no.such.path"] =
      .ok { sessLoaded with activeModule := none } ∧
    sessLoaded.activeModule ≠ none ∧
    sessLoaded.activeModuleName = some "cloud.aws.s3" ∧
    ({ sessLoaded with activeModule := none } : Session).activeModuleName =
      some "cloud.aws.s3" := by
  decide

/-- C3 amended: a failed load through the direct branch of handle_use
(no context, or a name containing a separator) sets the active module
instance to None while leaving the active module path and the module
options as they were, breaking the instance-iff-path invariant; a
short name inside a context instead raises TypeError before any state
is touched, so there the session is unchanged but the command
aborts. -/
theorem handleUse_load_failure_state (mgr : Manager)
    (env : String → Option ModuleInstance) (st : Session) (name : String)
    (hns : lookupStr name mgr.namespaces = none) :
    ((st.currentContext = "" ∨ strContainsChar name '.' = true) →
      loadModule mgr env name = none →
      handleUse mgr env st [name] = .ok { st with activeModule := none }) ∧
    (st.currentContext ≠ "" → strContainsChar name '.' = false →
      handleUse mgr env st [name] = .error PyError.typeError) := by
  constructor
  · intro h1 h2
    rcases h1 with h1 | h1
    · simp [handleUse, hns, h1, h2]
    · simp [handleUse, hns, h1, h2]
  · intro h1 h2
    simp [handleUse, hns, bne_iff_ne, h1, h2]

/-- Witness for the amended C3 statement at concrete inputs. -/
theorem handleUse_load_failure_state_witness :
    handleUse mgrEx envEx sessRoot ["no.such.path"] =
      .ok { sessRoot with activeModule := none } ∧
    handleUse mgrEx envEx sessAws ["shortname"] = .error PyError.typeError := by
  constructor
  · exact (handleUse_load_failure_state mgrEx envEx sessRoot "no.such.path"
      (by decide)).1 (Or.inl (by decide)) (by decide)
  · exact (handleUse_load_failure_state mgrEx envEx sessAws "shortname"
      (by decide)).2 (by decide) (by decide)

/-- C5 counterexample: two valid definitions with the same
`module_path`.  The first is kept and the second discarded, but no
validation error is recorded — `_errors` stays empty, against the
claim's "records a validation error for the discarded one". -/
theorem duplicate_path_records_no_error :
    (loadRegistryDefs {} [dDup1, dDup2] "misc.yaml").1.metadata_cache =
      [("misc.dup", metadataOf dDup1 "misc.yaml")] ∧
    (loadRegistryDefs {} [dDup1, dDup2] "misc.yaml").1.errors = [] ∧
    (loadRegistryDefs {} [dDup1, dDup2] "misc.yaml").2 = 1 := by
  decide

/-- C5 amended: registering two valid definitions with the same
`module_path` keeps exactly the first and discards the second, and the
registry maps that path to the first definition's metadata; but the
duplicate is only warned about in verbose mode — no validation error is
recorded, the `_errors` list is unchanged. -/
theorem duplicate_path_first_wins_no_recorded_error (mgr : Manager)
    (d1 d2 : ModDef) (src : String)
    (h1 : d1.id.isSome ∧ d1.name.isSome ∧ d1.module_path.isSome ∧ d1.category.isSome)
    (h2 : d2.id.isSome ∧ d2.name.isSome ∧ d2.module_path.isSome ∧ d2.category.isSome)
    (hsame : d2.module_path = d1.module_path)
    (hfresh : lookupStr (d1.module_path.getD "") mgr.metadata_cache = none) :
    (loadRegistryDefs mgr [d1, d2] src).1.metadata_cache =
      mgr.metadata_cache ++ [(d1.module_path.getD "", metadataOf d1 src)] ∧
    (loadRegistryDefs mgr [d1, d2] src).1.errors = mgr.errors ∧
    (loadRegistryDefs mgr [d1, d2] src).2 = 1 := by
  have hv1 := validateModuleDefinition_valid mgr d1 src h1
  have hr1 := registerModule_fresh mgr d1 src hfresh
  have hv2 := validateModuleDefinition_valid (registerModule mgr d1 src).1 d2 src h2
  have hdup : (lookupStr (d2.module_path.getD "")
      (registerModule mgr d1 src).1.metadata_cache).isSome = true := by
    rw [hsame, hr1.1, lookupStr_append_none _ hfresh]
    simp [lookupStr]
  have hr2 := registerModule_dup (registerModule mgr d1 src).1 d2 src hdup
  simp only [loadRegistryDefs, List.foldl, hv1]
  simp only [hv2, hr2, hr1.2.2, if_true]
  exact ⟨hr1.1, hr1.2.1, rfl⟩

/-- Witness for the amended C5 statement at concrete inputs. -/
theorem duplicate_path_first_wins_witness :
    (loadRegistryDefs {} [dDup1, dDup2] "cves.yaml").1.metadata_cache =
      [("misc.dup", metadataOf dDup1 "cves.yaml")] ∧
    (loadRegistryDefs {} [dDup1, dDup2] "cves.yaml").1.errors = [] ∧
    (loadRegistryDefs {} [dDup1, dDup2] "cves.yaml").2 = 1 := by
  exact duplicate_path_first_wins_no_recorded_error {} dDup1 dDup2 "cves.yaml"
    (by decide) (by decide) (by decide) (by decide)

/-- C4 counterexample: a global key was set to "us-east-1", a module
declaring it is active; a "module-scoped" `set AWS_REGION eu-west-1`
goes through the global branch of handle_set and rewrites the stored
global value — other modules will now see "eu-west-1", against the
claim's "without altering the stored global value". -/
theorem set_global_key_mutates_global_store :
    ((handleSet sessC4 ["AWS_REGION", "eu-west-1"]).1).globalOptions =
      [("AWS_REGION", "eu-west-1")] ∧
    sessC4.globalOptions = [("AWS_REGION", "us-east-1")] := by
  decide

/-- C4 amended: a recognized global option value does overlay the
schema default at load time, and a later `set` of the same key while a
module is active does update that module's working value — but the set
also rewrites the stored global value, so other modules loaded
afterwards see the new value, not the old one. -/
theorem set_global_key_overrides_everywhere (st : Session) (m : ModuleInstance)
    (K V1 : String)
    (hup : strUpper K = K) (hK : GLOBAL_OPTIONS.contains K = true)
    (hm : st.activeModule = some m)
    (hKopt : (lookupStr K st.moduleOptions).isSome = true)
    (hnodup : (st.globalOptions.map Prod.fst).Nodup) :
    lookupStr K ((handleSet st [K, V1]).1).globalOptions = some V1 ∧
    lookupStr K ((handleSet st [K, V1]).1).moduleOptions = some (PyVal.str V1) ∧
    (∀ (mgr : Manager) (env : String → Option ModuleInstance) (st2 : Session)
      (name : String) (inst : ModuleInstance),
      st2.globalOptions = ((handleSet st [K, V1]).1).globalOptions →
      lookupStr name mgr.namespaces = none →
      (st2.currentContext = "" ∨ strContainsChar name '.' = true) →
      loadModule mgr env name = some inst →
      (lookupStr K inst.options).isSome = true →
      handleUse mgr env st2 [name] = .ok { st2 with
        activeModule := some inst
        activeModuleName := some name
        moduleOptions := overlayGlobals st2.globalOptions inst.options } ∧
      lookupStr K (overlayGlobals st2.globalOptions inst.options) =
        some (PyVal.str V1)) := by
  have hset : (handleSet st [K, V1]).1 =
      { st with
        globalOptions := assocSet K V1 st.globalOptions
        activeModule := some { m with options := (setOptionOpts m.options K V1).2 }
        moduleOptions := assocSet K (.str V1) st.moduleOptions } := by
    have hKmem : K ∈ GLOBAL_OPTIONS := by
      simpa using hK
    simp [handleSet, intercalate_single, hup, hK, hKmem, hm, hKopt]
  refine ⟨?_, ?_, ?_⟩
  · rw [hset]
    exact lookupStr_assocSet_self K V1 st.globalOptions
  · rw [hset]
    exact lookupStr_assocSet_self K (PyVal.str V1) st.moduleOptions
  · intro mgr env st2 name inst hg hns hd hload hdecl
    refine ⟨handleUse_load_success mgr env st2 name inst hns hd hload, ?_⟩
    have hg2 : st2.globalOptions = assocSet K V1 st.globalOptions := by
      rw [hg, hset]
    rw [hg2]
    exact overlayGlobals_lookup_mem _ _
      (assocSet_keys_nodup K V1 hnodup)
      (lookupStr_some_mem (lookupStr_assocSet_self K V1 st.globalOptions))
      hdecl

/-- Witness for the amended C4 statement at concrete inputs. -/
theorem set_global_key_overrides_everywhere_witness :
    lookupStr "AWS_REGION" ((handleSet sessC4 ["AWS_REGION", "eu-west-1"]).1).globalOptions =
      some "eu-west-1" ∧
    lookupStr "AWS_REGION" ((handleSet sessC4 ["AWS_REGION", "eu-west-1"]).1).moduleOptions =
      some (PyVal.str "eu-west-1") ∧
    handleUse mgrEx envEx sessAfterSet ["cloud.aws.ec2"] = .ok { sessAfterSet with
      activeModule := some instEc2
      activeModuleName := some "cloud.aws.ec2"
      moduleOptions := overlayGlobals sessAfterSet.globalOptions instEc2.options } ∧
    lookupStr "AWS_REGION" (overlayGlobals sessAfterSet.globalOptions instEc2.options) =
      some (PyVal.str "eu-west-1") := by
  have h := set_global_key_overrides_everywhere sessC4 instS3 "AWS_REGION" "eu-west-1"
    (by decide) (by decide) (by decide) (by decide) (by decide)
  have h3 := h.2.2 mgrEx envEx sessAfterSet "cloud.aws.ec2" instEc2
    (by decide) (by decide) (Or.inl (by decide)) (by decide) (by decide)
  exact ⟨h.1, h.2.1, h3.1, h3.2⟩

/-- C6: a CVE module whose required RHOST is present but blank fails
run() with the "Invalid options" failure dictionary without reaching
the exploit step; after set_option("RHOST", V) with a non-blank V (and
the remaining required options valid), run() passes validation and
proceeds to execution. -/
theorem cve_required_option_gate (m : CVEModule) (V : String)
    (hreq : "RHOST" ∈ m.requiredOptions)
    (hunset : lookupStr "RHOST" m.options = some (PyVal.str ""))
    (hothers : ∀ opt ∈ m.requiredOptions, opt ≠ "RHOST" →
      isValidOptionValue (lookupStr opt m.options) = true)
    (hV : strTrim V ≠ "") :
    (CVEModule.run m).result =
      { success := false, error := some "Invalid options" } ∧
    (CVEModule.run m).exploitCalled = false ∧
    (CVEModule.setOption m "RHOST" V).1 = true ∧
    (CVEModule.run (CVEModule.setOption m "RHOST" V).2).exploitCalled = true ∧
    (CVEModule.run (CVEModule.setOption m "RHOST" V).2).result =
      m.exploitResult := by
  have hval0 : validateOptions m.options m.requiredOptions = false := by
    rw [validateOptions]
    cases hall : m.requiredOptions.all
        (fun opt => isValidOptionValue (lookupStr opt m.options)) with
    | false => rfl
    | true =>
      exfalso
      have := List.all_eq_true.mp hall "RHOST" hreq
      rw [hunset] at this
      simp [isValidOptionValue, strTrim] at this
  have hupper : strUpper "RHOST" = "RHOST" := by decide
  have hset : CVEModule.setOption m "RHOST" V =
      (true, { m with options := assocSet "RHOST" (PyVal.str V) m.options }) := by
    simp [CVEModule.setOption, setOptionOpts, hupper, hunset, convertOptionValue]
  have hval1 : validateOptions
      (assocSet "RHOST" (PyVal.str V) m.options) m.requiredOptions = true := by
    rw [validateOptions, List.all_eq_true]
    intro opt hopt
    by_cases h : opt = "RHOST"
    · subst h
      rw [lookupStr_assocSet_self]
      simpa [isValidOptionValue] using hV
    · have hne : ("RHOST" : String) ≠ opt := fun hh => h hh.symm
      rw [lookupStr_assocSet_ne hne]
      exact hothers opt hopt h
  refine ⟨?_, ?_, ?_, ?_, ?_⟩
  · simp [CVEModule.run, hval0]
  · simp [CVEModule.run, hval0]
  · rw [hset]
  · rw [hset]
    simp [CVEModule.run, hval1]
  · rw [hset]
    simp [CVEModule.run, hval1]

/-- Witness for C6 at a concrete CVE module. -/
theorem cve_required_option_gate_witness :
    (CVEModule.run cveUnset).result =
      { success := false, error := some "Invalid options" } ∧
    (CVEModule.run cveUnset).exploitCalled = false ∧
    (CVEModule.setOption cveUnset "RHOST" "10.0.0.5").1 = true ∧
    (CVEModule.run (CVEModule.setOption cveUnset "RHOST" "10.0.0.5").2).exploitCalled =
      true ∧
    (CVEModule.run (CVEModule.setOption cveUnset "RHOST" "10.0.0.5").2).result =
      cveUnset.exploitResult := by
  refine cve_required_option_gate cveUnset "10.0.0.5" (by decide) (by decide) ?_
    (by decide)
  intro opt hopt hne
  exfalso
  apply hne
  simpa [cveUnset] using hopt

/-- C7 counterexample: "bogus" and ".." are neither registered
namespaces nor category keys, yet `ls bogus` moves the context from
"cloud" to "bogus" (handle_list assigns the context before any
validity check), and `cd ..` moves it from "cloud" to the root. -/
theorem list_sets_context_on_invalid_target :
    lookupStr "bogus" mgrEx.namespaces = none ∧
    lookupStr "bogus" CATEGORIES_INFO = none ∧
    (handleListContext mgrEx sessCloud ["bogus"]).currentContext = "bogus" ∧
    sessCloud.currentContext = "cloud" ∧
    lookupStr ".." mgrEx.namespaces = none ∧
    lookupStr ".." CATEGORIES_INFO = none ∧
    (handleCd mgrEx sessCloud [".."]).currentContext = "" := by
  decide

/-- C7 amended: for a target whose lower-casing is not "..", is not a
registered namespace or category key, and does not name a namespace
child of the current context, `cd` leaves the whole session unchanged
(reporting an error, not raising); `list`, by contrast, always installs
the lower-cased target as the new context before checking it. -/
theorem invalid_target_navigation (mgr : Manager) (st : Session) (x : String)
    (hdd : strLower x ≠ "..")
    (hns : lookupStr (strLower x) mgr.namespaces = none)
    (hcat : lookupStr (strLower x) CATEGORIES_INFO = none)
    (hrel : st.currentContext = "" ∨ strContainsChar (strLower x) '.' = true ∨
      lookupStr (st.currentContext ++ "." ++ strLower x) mgr.namespaces = none) :
    handleCd mgr st [x] = st ∧
    handleListContext mgr st [x] = { st with currentContext := strLower x } := by
  refine ⟨?_, rfl⟩
  rcases hrel with hr | hr | hr
  · simp [handleCd, hdd, hns, hcat, hr]
  · simp [handleCd, hdd, hns, hcat, hr]
  · simp [handleCd, hdd, hns, hcat, hr]

/-- Witness for the amended C7 statement at concrete inputs. -/
theorem invalid_target_navigation_witness :
    handleCd mgrEx sessCloud ["bogus2"] = sessCloud ∧
    handleListContext mgrEx sessCloud ["bogus2"] =
      { sessCloud with currentContext := "bogus2" } := by
  have h := invalid_target_navigation mgrEx sessCloud "bogus2"
    (by decide) (by decide) (by decide) (Or.inr (Or.inr (by decide)))
  exact ⟨h.1, h.2⟩

/-- A session with a stored sensitive-named global option. -/
def sessWit : Session :=
  { activeModule := none, activeModuleName := none, moduleOptions := [],
    globalOptions := [("AWS_SECRET_KEY", "s3cr3t")], currentContext := "" }

/-- A session with the s3 module active and a global region value the
module options were seeded with. -/
def sessC9 : Session :=
  { activeModule := some instS3, activeModuleName := some "cloud.aws.s3",
    moduleOptions := [("AWS_REGION", PyVal.str "eu-central-1"), ("BUCKET", PyVal.str "")],
    globalOptions := [("AWS_REGION", "eu-central-1")], currentContext := "" }

/-- C8 counterexample: `set SECRET_KEY hunter2` prints the confirmation
line with the raw value interpolated — the stored value appears
verbatim in human-facing output, even though mask_sensitive_value would
mask this key. -/
theorem set_echoes_secret_verbatim :
    (handleSet sessRoot ["SECRET_KEY", "hunter2"]).2 =
      [globalSetEchoLine "SECRET_KEY" "hunter2"] ∧
    strContainsSub (globalSetEchoLine "SECRET_KEY" "hunter2") "hunter2" = true ∧
    maskSensitiveValue "SECRET_KEY" (PyVal.str "hunter2") = "***" := by
  decide

/-- C8 amended: the value columns of `show global`, `show options` and
`info` all go through mask_sensitive_value, which renders any truthy
value under a sensitive-keyword key as "***"; the `set` confirmation
line, however, interpolates the raw value verbatim. -/
theorem sensitive_masking_and_set_echo (st : Session) (k v K V : String)
    (hs : SENSITIVE_KEYWORDS.any (fun s => strContainsSub (strUpper k) s) = true)
    (hv : v ≠ "") :
    maskSensitiveValue k (PyVal.str v) = "***" ∧
    ((k, v) ∈ st.globalOptions → (k, "***") ∈ showGlobalRows st.globalOptions) ∧
    (∀ m : ModuleInstance, st.activeModule = some m →
      ∀ pv : PyVal, (k, pv) ∈ st.moduleOptions → pyTruthy pv = true →
        (k, "***",
         (if m.requiredOptions.contains k then "Yes" else "No"),
         pyTypeName pv,
         (if (lookupStr k st.globalOptions).isSome then "global" else "module"))
          ∈ (showModuleOptionsRows st).getD []) ∧
    (∀ m : ModuleInstance, ∀ pv : PyVal, (k, pv) ∈ m.options → pyTruthy pv = true →
      (k, "***", (if m.requiredOptions.contains k then "Yes" else "No"), "")
        ∈ displayModuleOptionsRows m) ∧
    (GLOBAL_OPTIONS.contains (strUpper K) = true →
      (handleSet st [K, V]).2 = [globalSetEchoLine (strUpper K) V] ∧
      strContainsSub (globalSetEchoLine (strUpper K) V) V = true) := by
  have hmask : ∀ pv : PyVal, pyTruthy pv = true →
      maskSensitiveValue k pv = "***" := by
    intro pv ht
    simp [maskSensitiveValue, hs, ht]
  have hmaskv : maskSensitiveValue k (PyVal.str v) = "***" :=
    hmask (PyVal.str v) (by simp [pyTruthy, hv])
  refine ⟨hmaskv, ?_, ?_, ?_, ?_⟩
  · intro hmem
    exact List.mem_map.mpr ⟨(k, v), hmem, by rw [hmaskv]⟩
  · intro m hm pv hmem ht
    rw [showModuleOptionsRows, hm, Option.getD_some]
    exact List.mem_map.mpr ⟨(k, pv), hmem, by rw [hmask pv ht]⟩
  · intro m pv hmem ht
    exact List.mem_map.mpr ⟨(k, pv), hmem, by rw [hmask pv ht]⟩
  · intro hKc
    have hKmem : strUpper K ∈ GLOBAL_OPTIONS := by simpa using hKc
    constructor
    · cases hsm : st.activeModule <;>
        simp [handleSet, intercalate_single, hKmem, hsm]
    · exact @strContainsSub_of_eq_append _ _
        ("[green]" ++ strUpper K ++ " => [bold]")
        ("[/bold][/green] [dim](global)[/dim]") rfl

/-- Witness for the amended C8 statement at concrete inputs. -/
theorem sensitive_masking_and_set_echo_witness :
    maskSensitiveValue "AWS_SECRET_KEY" (PyVal.str "s3cr3t") = "***" ∧
    ("AWS_SECRET_KEY", "***") ∈ showGlobalRows sessWit.globalOptions ∧
    (handleSet sessWit ["secret_key", "s3cr3t"]).2 =
      [globalSetEchoLine (strUpper "secret_key") "s3cr3t"] ∧
    strContainsSub (globalSetEchoLine (strUpper "secret_key") "s3cr3t") "s3cr3t" =
      true := by
  have h := sensitive_masking_and_set_echo sessWit "AWS_SECRET_KEY" "s3cr3t"
    "secret_key" "s3cr3t" (by decide) (by decide)
  have h5 := h.2.2.2.2 (by decide)
  exact ⟨h.1, h.2.1 (by decide), h5.1, h5.2⟩

/-- C9: back() on a session with an active module clears the active
module, its name and the module-scoped options while leaving every
global option (and the context) unchanged; a subsequent use of another
module whose schema declares a previously set global key receives that
global value as its initial working value. -/
theorem back_preserves_globals (mgr : Manager) (env : String → Option ModuleInstance)
    (st : Session) (m inst : ModuleInstance) (name K V : String)
    (hm : st.activeModule = some m)
    (hnodup : (st.globalOptions.map Prod.fst).Nodup)
    (hKV : (K, V) ∈ st.globalOptions)
    (hns : lookupStr name mgr.namespaces = none)
    (hd : st.currentContext = "" ∨ strContainsChar name '.' = true)
    (hload : loadModule mgr env name = some inst)
    (hdecl : (lookupStr K inst.options).isSome = true) :
    handleBack st = { st with
      activeModule := none, activeModuleName := none, moduleOptions := [] } ∧
    (handleBack st).globalOptions = st.globalOptions ∧
    handleUse mgr env (handleBack st) [name] = .ok { (handleBack st) with
      activeModule := some inst, activeModuleName := some name,
      moduleOptions := overlayGlobals (handleBack st).globalOptions inst.options } ∧
    lookupStr K (overlayGlobals (handleBack st).globalOptions inst.options) =
      some (PyVal.str V) := by
  have hb : handleBack st = { st with
      activeModule := none, activeModuleName := none, moduleOptions := [] } := by
    simp [handleBack, hm]
  refine ⟨hb, by rw [hb], ?_, ?_⟩
  · apply handleUse_load_success mgr env (handleBack st) name inst hns ?_ hload
    rw [hb]
    exact hd
  · rw [hb]
    exact overlayGlobals_lookup_mem _ _ hnodup hKV hdecl

/-- Witness for C9 at concrete inputs. -/
theorem back_preserves_globals_witness :
    handleBack sessC9 = { sessC9 with
      activeModule := none, activeModuleName := none, moduleOptions := [] } ∧
    (handleBack sessC9).globalOptions = sessC9.globalOptions ∧
    handleUse mgrEx envEx (handleBack sessC9) ["cloud.aws.ec2"] =
      .ok { (handleBack sessC9) with
        activeModule := some instEc2, activeModuleName := some "cloud.aws.ec2",
        moduleOptions :=
          overlayGlobals (handleBack sessC9).globalOptions instEc2.options } ∧
    lookupStr "AWS_REGION"
        (overlayGlobals (handleBack sessC9).globalOptions instEc2.options) =
      some (PyVal.str "eu-central-1") := by
  exact back_preserves_globals mgrEx envEx sessC9 instS3 instEc2 "cloud.aws.ec2"
    "AWS_REGION" "eu-central-1" (by decide) (by decide) (by decide) (by decide)
    (Or.inl (by decide)) (by decide) (by decide)

/-- C10: get_namespace_modules returns the empty list for any argument
that is not a registered namespace (even when descriptors below that
path exist), and for a registered namespace it returns exactly the
non-namespace cache entries whose path extends it, sorted ascending by
display name. -/
theorem getNamespaceModules_spec (mgr : Manager) (p : String) :
    ((lookupStr p mgr.namespaces).isSome = false →
      getNamespaceModules mgr p = []) ∧
    ((lookupStr p mgr.namespaces).isSome = true →
      (getNamespaceModules mgr p).Perm
        ((mgr.metadata_cache.filter
          (fun pm => strStartsWith pm.1 (p ++ ".") && !pm.2.is_namespace)).map
          Prod.snd) ∧
      (getNamespaceModules mgr p).Sorted nameLe) := by
  constructor
  · intro h
    simp [getNamespaceModules, h]
  · intro h
    rw [getNamespaceModules, if_pos h]
    exact ⟨List.perm_insertionSort nameLe _, List.sorted_insertionSort nameLe _⟩

/-- Witness for C10: "misc.tools" is not a namespace but has a
registered descendant, and gets the empty list; "cloud.aws" is a
namespace and gets its sorted member list. -/
theorem getNamespaceModules_spec_witness :
    getNamespaceModules mgrEx "misc.tools" = [] ∧
    (mgrEx.metadata_cache.filter
      (fun pm => strStartsWith pm.1 ("misc.tools" ++ ".") && !pm.2.is_namespace)).map
      Prod.snd ≠ [] ∧
    (getNamespaceModules mgrEx "cloud.aws").Perm
      ((mgrEx.metadata_cache.filter
        (fun pm => strStartsWith pm.1 ("cloud.aws" ++ ".") && !pm.2.is_namespace)).map
        Prod.snd) ∧
    (getNamespaceModules mgrEx "cloud.aws").Sorted nameLe := by
  have h1 := (getNamespaceModules_spec mgrEx "misc.tools").1 (by decide)
  have h2 := (getNamespaceModules_spec mgrEx "cloud.aws").2 (by decide)
  exact ⟨h1, by decide, h2.1, h2.2⟩
